import Mathlib

/-!
Verification of the remix-architect gateway adapter
(packages/remix-architect/server.ts).

The adapter converts an AWS API Gateway v2 event into a generic (Fetch-style)
request, and serializes the generic response produced by the Remix handler back
into the gateway reply shape.  We embed the data model and the three functions
the claims are about: createRemixHeaders, createRemixRequest and
sendRemixResponse, together with the bufferStream helper.

Modelling conventions:
* The Fetch-style header collection (node-fetch Headers) is modelled as a list
  of name/value entries in append order.  All operations (get, set, delete,
  raw) compare names case-insensitively via String.toLower, as node-fetch does.
  raw groups the entries by case-insensitive name in first-occurrence order,
  keeping the casing of the first occurrence, exactly like the internal map of
  node-fetch that Object.entries iterates.  Iteration of a Headers object
  (used by Object.fromEntries) yields one pair per case-insensitive name, the
  name lowercased and the values joined with a comma and a space; node-fetch
  additionally sorts these pairs by key, which we do not model since the
  result is consumed as a mapping (key lookup only).
* Bytes are Nat values; a body stream is a list of byte chunks.  Converting a
  buffer to a string (Buffer.prototype.toString and Response.prototype.text)
  is modelled as mapping each byte to the character with that code point;
  multi-byte UTF-8 sequences are not modelled, which no claim depends on.
* JavaScript truthiness on strings (empty string is falsy) and on optional
  values (undefined is falsy) is spelled out at each use site.
* new URL(rawPath + search, "https://" + host) is modelled as a record with
  the host, pathname and search components taken verbatim; URL normalization
  (percent-encoding, dot-segment removal, host lowercasing) is not modelled.
  When neither host header is present, JavaScript template interpolation turns
  undefined into the literal text "undefined", which the model reproduces.
* The binary content-type allow-list (binaryTypes, imported from
  @architect/functions) is an opaque configuration list; it is passed as a
  parameter.
* The AbortController is reduced to the one bit the adapter reads from it,
  signal.aborted.
-/

namespace RemixArchitect

/-- JavaScript String.prototype.toLowerCase restricted to the basic latin
letters that HTTP header names are drawn from (the same mapping as the standard String.toLower, written as a structural map so that it evaluates). -/
def lowerName (s : String) : String :=
  String.mk (s.data.map Char.toLower)

/-- One name/value entry of a Fetch-style header collection. -/
abbrev HeaderEntry := String × String

/-- Model of the node-fetch Headers class: entries in append order. -/
structure NodeHeaders where
  entries : List HeaderEntry
deriving Repr, DecidableEq

def NodeHeaders.empty : NodeHeaders := ⟨[]⟩

/-- Headers.prototype.append: adds a value at the end of the collection. -/
def NodeHeaders.append (h : NodeHeaders) (name value : String) : NodeHeaders :=
  ⟨h.entries ++ [(name, value)]⟩

/-- Headers.prototype.delete: removes every value stored under the
case-insensitive name. -/
def NodeHeaders.delete (h : NodeHeaders) (name : String) : NodeHeaders :=
  ⟨h.entries.filter (fun e => lowerName e.1 ≠ lowerName name)⟩

/-- Headers.prototype.set: replaces every value stored under the
case-insensitive name with the single given value.  (node-fetch keeps the
original key casing and position when the name was already present; only the
key lookup view of the result is observed by the adapter, so we append.) -/
def NodeHeaders.set (h : NodeHeaders) (name value : String) : NodeHeaders :=
  ⟨h.entries.filter (fun e => lowerName e.1 ≠ lowerName name) ++ [(name, value)]⟩

/-- Headers.prototype.get: null when the case-insensitive name is absent,
otherwise all its values joined with a comma and a space. -/
def NodeHeaders.get (h : NodeHeaders) (name : String) : Option String :=
  match h.entries.filter (fun e => lowerName e.1 = lowerName name) with
  | [] => none
  | vs => some (String.intercalate ", " (vs.map Prod.snd))

/-- Adds one value to the grouped (internal-map) view of a header collection:
when a group with the same case-insensitive name exists the value is pushed at
the end of that group, which keeps its original key casing and position;
otherwise a new group is created at the end. -/
def insertGroup : List (String × List String) → String → String → List (String × List String)
  | [], name, value => [(name, [value])]
  | g :: gs, name, value =>
      if lowerName g.1 = lowerName name then (g.1, g.2 ++ [value]) :: gs
      else g :: insertGroup gs name value

/-- Headers.prototype.raw: the multi-valued view of the collection, grouped by
case-insensitive name in first-occurrence order, keeping the casing of the
first occurrence; each group carries its values in append order.  This is the
shape of the internal map of node-fetch. -/
def NodeHeaders.raw (h : NodeHeaders) : List (String × List String) :=
  h.entries.foldl (fun gs e => insertGroup gs e.1 e.2) []

/-- Iterating a Headers object (as Object.fromEntries does): one pair per
case-insensitive name, the name lowercased, the values joined with a comma and
a space. -/
def NodeHeaders.entriesIter (h : NodeHeaders) : List (String × String) :=
  h.raw.map (fun kv => (lowerName kv.1, String.intercalate ", " kv.2))

/-- Key lookup in the flat single-valued header mapping of the outbound
reply. -/
def mappingGet (m : List (String × String)) (key : String) : Option String :=
  (m.find? (fun e => e.1 = key)).map Prod.snd

/-- The headers field of an API Gateway v2 event: a JavaScript object whose
values may be undefined, iterated in insertion order.  Lookup of a property is
case-sensitive. -/
abbrev EventHeaders := List (String × Option String)

/-- Case-sensitive JavaScript object property lookup on the event headers. -/
def lookupHeader (hs : EventHeaders) (name : String) : Option String :=
  match hs.find? (fun e => e.1 = name) with
  | some kv => kv.2
  | none => none

structure HttpContext where
  method : String
deriving Repr, DecidableEq

structure RequestContext where
  http : HttpContext
deriving Repr, DecidableEq

/-- The inbound API Gateway v2 event (the fields the adapter reads). -/
structure APIGatewayProxyEventV2 where
  rawPath : String
  rawQueryString : String
  headers : EventHeaders
  cookies : Option (List String)
  requestContext : RequestContext
  body : Option String
  isBase64Encoded : Bool
deriving Repr, DecidableEq

/-- A byte, as produced by Buffer / stream chunks. -/
abbrev Byte := Nat

/-- Buffer.prototype.toString (and Response.prototype.text): each byte becomes
the character with that code point. -/
def bytesToString (bs : List Byte) : String :=
  String.mk (bs.map Char.ofNat)

/-- The numeric value of one base64 digit; the base64 decoder of Node accepts both
the standard and the url-safe alphabet and skips every other character. -/
def b64Val (c : Char) : Option Nat :=
  if 'A' ≤ c ∧ c ≤ 'Z' then some (c.toNat - 65)
  else if 'a' ≤ c ∧ c ≤ 'z' then some (c.toNat - 97 + 26)
  else if '0' ≤ c ∧ c ≤ '9' then some (c.toNat - 48 + 52)
  else if c = '+' ∨ c = '-' then some 62
  else if c = '/' ∨ c = '_' then some 63
  else none

/-- Reassembles bytes from a list of base64 digit values: four digits give
three bytes, a trailing three give two, a trailing two give one, a lone
trailing digit is dropped. -/
def b64Bytes : List Nat → List Byte
  | a :: b :: c :: d :: rest =>
      (a * 4 + b / 16) :: ((b % 16) * 16 + c / 4) :: ((c % 4) * 64 + d) :: b64Bytes rest
  | [a, b] => [a * 4 + b / 16]
  | [a, b, c] => [a * 4 + b / 16, (b % 16) * 16 + c / 4]
  | _ => []

/-- Buffer.from(s, "base64").toString(). -/
def decodeBase64 (s : String) : String :=
  bytesToString (b64Bytes (s.data.filterMap b64Val))

/-- createRemixHeaders: copy every event header whose value is truthy (present
and non-empty), then, when the event carries a cookies field (JavaScript
truthiness: any array, even empty, is truthy), append one Cookie header whose
value is the cookie strings joined with a semicolon and a space. -/
def createRemixHeaders (requestHeaders : EventHeaders)
    (requestCookies : Option (List String)) : NodeHeaders :=
  let headers := requestHeaders.foldl
    (fun (hs : NodeHeaders) kv =>
      match kv.2 with
      | some v => if v ≠ "" then hs.append kv.1 v else hs
      | none => hs)
    NodeHeaders.empty
  match requestCookies with
  | some cs => headers.append "Cookie" (String.intercalate "; " cs)
  | none => headers

/-- The host the adapter resolves: the x-forwarded-host header when truthy,
else the host header.  none models JavaScript undefined (neither header
present, or x-forwarded-host falsy and host absent). -/
def eventHost (e : APIGatewayProxyEventV2) : Option String :=
  match lookupHeader e.headers "x-forwarded-host" with
  | some v => if v ≠ "" then some v else lookupHeader e.headers "host"
  | none => lookupHeader e.headers "host"

/-- JavaScript template interpolation of a possibly-undefined string. -/
def jsStringOfOption : Option String → String
  | some s => s
  | none => "undefined"

/-- Model of the URL object built by new URL(rawPath + search,
"https://" + host): components taken verbatim, no normalization. -/
structure URLModel where
  host : String
  pathname : String
  search : String
deriving Repr, DecidableEq

/-- URL.prototype.href for the https scheme. -/
def URLModel.href (u : URLModel) : String :=
  "https://" ++ u.host ++ u.pathname ++ u.search

/-- The generic request handed to the Remix handler (the fields the adapter
sets and the claims read). -/
structure NodeRequest where
  url : URLModel
  method : String
  headers : NodeHeaders
  body : Option String
deriving Repr, DecidableEq

/-- createRemixRequest: resolve the host, build the URL from rawPath and
rawQueryString, copy the method, build the headers, and decode the body from
base64 when the event flags it as encoded and it is truthy (non-empty). -/
def createRemixRequest (event : APIGatewayProxyEventV2) : NodeRequest :=
  let host := eventHost event
  let search := if event.rawQueryString.length ≠ 0 then "?" ++ event.rawQueryString else ""
  let url : URLModel :=
    { host := jsStringOfOption host
      pathname := event.rawPath
      search := search }
  { url := url
    method := event.requestContext.http.method
    headers := createRemixHeaders event.headers event.cookies
    body :=
      match event.body with
      | some b => if b ≠ "" ∧ event.isBase64Encoded then some (decodeBase64 b) else some b
      | none => none }

/-- The generic response produced by the Remix handler: status, headers and a
body stream (a list of byte chunks). -/
structure NodeResponse where
  status : Nat
  headers : NodeHeaders
  bodyChunks : List (List Byte)
deriving Repr, DecidableEq

/-- bufferStream: drain the stream and concatenate all chunks. -/
def bufferStream (chunks : List (List Byte)) : List Byte :=
  chunks.flatten

/-- Response.prototype.text: drain the body and decode it as text. -/
def NodeResponse.text (r : NodeResponse) : String :=
  bytesToString (bufferStream r.bodyChunks)

/-- The cookie extraction loop of sendRemixResponse: walk the raw header
groups and collect, in encounter order, every value stored under a name that
lowercases to set-cookie. -/
def cookiesOf (h : NodeHeaders) : List String :=
  (h.raw.map (fun kv => if lowerName kv.1 = "set-cookie" then kv.2 else [])).flatten

/-- The gateway reply shape. -/
structure OutboundReply where
  statusCode : Nat
  headers : List (String × String)
  cookies : List String
  body : String
  isBase64Encoded : Bool
deriving Repr, DecidableEq

/-- sendRemixResponse: extract cookies, delete the set-cookie headers when any
cookie was found, set Connection to close when the invocation was aborted,
classify the body as binary by content-type membership in binaryTypes, and
materialize the body (buffered bytes when binary, text otherwise). -/
def sendRemixResponse (binaryTypes : List String) (response : NodeResponse)
    (aborted : Bool) : OutboundReply :=
  let cookies := cookiesOf response.headers
  let headers1 :=
    if cookies.length ≠ 0 then response.headers.delete "set-cookie" else response.headers
  let headers2 := if aborted then headers1.set "Connection" "close" else headers1
  let contentType := headers2.get "content-type"
  let isBinary : Bool :=
    match contentType with
    | some ct => if ct ≠ "" then binaryTypes.contains ct else false
    | none => false
  let body :=
    if isBinary then bytesToString (bufferStream response.bodyChunks) else response.text
  { statusCode := response.status
    headers := headers2.entriesIter
    cookies := cookies
    body := body
    isBase64Encoded := isBinary }

/-! ## Helper lemmas -/

theorem toNat_ofNat_of_valid {n : Nat} (h : n < 55296) : (Char.ofNat n).toNat = n := by
  rw [Char.ofNat, dif_pos (Or.inl h)]
  rfl

theorem char_toLower_idem (c : Char) : c.toLower.toLower = c.toLower := by
  unfold Char.toLower
  by_cases h : c.toNat ≥ 65 ∧ c.toNat ≤ 90
  · rw [if_pos h]
    have hv : (Char.ofNat (c.toNat + 32)).toNat = c.toNat + 32 :=
      toNat_ofNat_of_valid (by omega)
    rw [if_neg]
    rw [hv]
    omega
  · rw [if_neg h, if_neg h]

theorem lowerName_idem (s : String) : lowerName (lowerName s) = lowerName s := by
  have hmap : Char.toLower ∘ Char.toLower = Char.toLower := funext char_toLower_idem
  unfold lowerName
  refine congrArg String.mk ?_
  show List.map Char.toLower (List.map Char.toLower s.data) = List.map Char.toLower s.data
  rw [List.map_map, hmap]

theorem find?_eq_head?_filter {α : Type} (p : α → Bool) (l : List α) :
    l.find? p = (l.filter p).head? := by
  induction l with
  | nil => rfl
  | cons a t ih =>
      cases hp : p a
      · rw [List.find?_cons_of_neg _ (by simp [hp]), List.filter_cons_of_neg (by simp [hp]), ih]
      · rw [List.find?_cons_of_pos _ hp, List.filter_cons_of_pos hp, List.head?_cons]

theorem insertGroup_filter_ne (gs : List (String × List String)) (n v s : String)
    (h : lowerName n ≠ s) :
    (insertGroup gs n v).filter (fun g => lowerName g.1 = s)
      = gs.filter (fun g => lowerName g.1 = s) := by
  induction gs with
  | nil => simp [insertGroup, h]
  | cons g gs ih =>
      unfold insertGroup
      by_cases hg : lowerName g.1 = lowerName n
      · rw [if_pos hg]
        have hgs : ¬ lowerName g.1 = s := by rw [hg]; exact h
        rw [List.filter_cons_of_neg (by simp [hgs]), List.filter_cons_of_neg (by simp [hgs])]
      · rw [if_neg hg]
        by_cases hs : lowerName g.1 = s
        · rw [List.filter_cons_of_pos (by simp [hs]), List.filter_cons_of_pos (by simp [hs]), ih]
        · rw [List.filter_cons_of_neg (by simp [hs]), List.filter_cons_of_neg (by simp [hs]), ih]

theorem insertGroup_filter_eq_nil (gs : List (String × List String)) (n v s : String)
    (hn : lowerName n = s)
    (h : gs.filter (fun g => lowerName g.1 = s) = []) :
    (insertGroup gs n v).filter (fun g => lowerName g.1 = s) = [(n, [v])] := by
  induction gs with
  | nil => simp [insertGroup, hn]
  | cons g gs ih =>
      by_cases hg : lowerName g.1 = s
      · rw [List.filter_cons_of_pos (by simp [hg])] at h
        exact absurd h (by simp)
      · rw [List.filter_cons_of_neg (by simp [hg])] at h
        unfold insertGroup
        have hgn : ¬ lowerName g.1 = lowerName n := by rw [hn]; exact hg
        rw [if_neg hgn, List.filter_cons_of_neg (by simp [hg]), ih h]

theorem insertGroup_filter_eq_one (gs : List (String × List String)) (n v s k : String)
    (vs : List String) (hn : lowerName n = s)
    (h : gs.filter (fun g => lowerName g.1 = s) = [(k, vs)]) :
    (insertGroup gs n v).filter (fun g => lowerName g.1 = s) = [(k, vs ++ [v])] := by
  induction gs with
  | nil => exact absurd h (by simp)
  | cons g gs ih =>
      by_cases hg : lowerName g.1 = s
      · rw [List.filter_cons_of_pos (by simp [hg])] at h
        obtain ⟨hgk, hrest⟩ := List.cons_eq_cons.mp h
        unfold insertGroup
        have hgn : lowerName g.1 = lowerName n := by rw [hn]; exact hg
        rw [if_pos hgn, List.filter_cons_of_pos (by simp [hg]), hrest, hgk]
      · rw [List.filter_cons_of_neg (by simp [hg])] at h
        unfold insertGroup
        have hgn : ¬ lowerName g.1 = lowerName n := by rw [hn]; exact hg
        rw [if_neg hgn, List.filter_cons_of_neg (by simp [hg]), ih h]

theorem foldl_insertGroup_filter_one (s k : String) (l : List HeaderEntry) :
    ∀ (gs : List (String × List String)) (vs : List String),
    gs.filter (fun g => lowerName g.1 = s) = [(k, vs)] →
    ((l.foldl (fun gs e => insertGroup gs e.1 e.2) gs).filter (fun g => lowerName g.1 = s))
      = [(k, vs ++ (l.filter (fun e => lowerName e.1 = s)).map Prod.snd)] := by
  induction l with
  | nil => intro gs vs h; simpa using h
  | cons e rest ih =>
      intro gs vs h
      rw [List.foldl_cons]
      by_cases he : lowerName e.1 = s
      · have h2 := insertGroup_filter_eq_one gs e.1 e.2 s k vs he h
        rw [ih _ _ h2, List.filter_cons_of_pos (by simp [he]), List.map_cons,
          List.append_assoc]
        rfl
      · have h2 := insertGroup_filter_ne gs e.1 e.2 s he
        rw [ih _ _ (h2.trans h), List.filter_cons_of_neg (by simp [he])]

theorem foldl_insertGroup_filter_nil (s : String) (l : List HeaderEntry) :
    ∀ (gs : List (String × List String)),
    gs.filter (fun g => lowerName g.1 = s) = [] →
    ((l.foldl (fun gs e => insertGroup gs e.1 e.2) gs).filter (fun g => lowerName g.1 = s))
      = match l.filter (fun e => lowerName e.1 = s) with
        | [] => []
        | e :: es => [(e.1, e.2 :: es.map Prod.snd)] := by
  induction l with
  | nil => intro gs h; simpa using h
  | cons e rest ih =>
      intro gs h
      rw [List.foldl_cons]
      by_cases he : lowerName e.1 = s
      · have h2 := insertGroup_filter_eq_nil gs e.1 e.2 s he h
        rw [foldl_insertGroup_filter_one s e.1 rest _ _ h2,
          List.filter_cons_of_pos (by simp [he])]
        simp
      · have h2 := insertGroup_filter_ne gs e.1 e.2 s he
        rw [ih _ (h2.trans h), List.filter_cons_of_neg (by simp [he])]

theorem raw_filter (h : NodeHeaders) (s : String) :
    h.raw.filter (fun g => lowerName g.1 = s)
      = match h.entries.filter (fun e => lowerName e.1 = s) with
        | [] => []
        | e :: es => [(e.1, e.2 :: es.map Prod.snd)] :=
  foldl_insertGroup_filter_nil s h.entries [] rfl

theorem cookiesOf_eq (h : NodeHeaders) :
    cookiesOf h
      = (h.entries.filter (fun e => lowerName e.1 = "set-cookie")).map Prod.snd := by
  have hstep :
      ∀ (l : List (String × List String)),
        (l.map (fun kv => if lowerName kv.1 = "set-cookie" then kv.2 else [])).flatten
          = ((l.filter (fun g => lowerName g.1 = "set-cookie")).map Prod.snd).flatten := by
    intro l
    induction l with
    | nil => rfl
    | cons g gs ih =>
        by_cases hg : lowerName g.1 = "set-cookie"
        · rw [List.map_cons, if_pos hg, List.filter_cons_of_pos (by simp [hg]),
            List.map_cons, List.flatten_cons, List.flatten_cons, ih]
        · rw [List.map_cons, if_neg hg, List.filter_cons_of_neg (by simp [hg]),
            List.flatten_cons, List.nil_append, ih]
  unfold cookiesOf
  rw [hstep, raw_filter]
  cases hf : h.entries.filter (fun e => lowerName e.1 = "set-cookie") with
  | nil => rfl
  | cons e es => simp

theorem mappingGet_entriesIter (h : NodeHeaders) (s : String) :
    mappingGet h.entriesIter s
      = match h.entries.filter (fun e => lowerName e.1 = s) with
        | [] => none
        | e :: es => some (String.intercalate ", " (e.2 :: es.map Prod.snd)) := by
  unfold mappingGet NodeHeaders.entriesIter
  rw [find?_eq_head?_filter, List.filter_map]
  have hco :
      (h.raw.filter
          ((fun p => decide (p.1 = s)) ∘
            fun kv => (lowerName kv.1, String.intercalate ", " kv.2)))
        = h.raw.filter (fun g => lowerName g.1 = s) :=
    List.filter_congr (fun x _ => rfl)
  rw [hco, raw_filter]
  cases hf : h.entries.filter (fun e => lowerName e.1 = s) with
  | nil => rfl
  | cons e es => rfl

theorem filter_ne_then_eq (l : List HeaderEntry) (s t : String) (hst : s ≠ t) :
    (l.filter (fun e => lowerName e.1 ≠ t)).filter (fun e => lowerName e.1 = s)
      = l.filter (fun e => lowerName e.1 = s) := by
  induction l with
  | nil => rfl
  | cons e rest ih =>
      by_cases he : lowerName e.1 = s
      · have hne : lowerName e.1 ≠ t := by rw [he]; exact hst
        rw [List.filter_cons_of_pos (by simp [hne]), List.filter_cons_of_pos (by simp [he]),
          List.filter_cons_of_pos (by simp [he]), ih]
      · by_cases hnt : lowerName e.1 = t
        · rw [List.filter_cons_of_neg (by simp [hnt]), List.filter_cons_of_neg (by simp [he]), ih]
        · rw [List.filter_cons_of_pos (by simp [hnt]), List.filter_cons_of_neg (by simp [he]),
            List.filter_cons_of_neg (by simp [he]), ih]

theorem get_delete_of_ne (h : NodeHeaders) (n m : String)
    (hnm : lowerName m ≠ lowerName n) :
    (h.delete n).get m = h.get m := by
  unfold NodeHeaders.get NodeHeaders.delete
  rw [filter_ne_then_eq h.entries (lowerName m) (lowerName n) hnm]

theorem get_set_of_ne (h : NodeHeaders) (n v m : String)
    (hnm : lowerName m ≠ lowerName n) :
    (h.set n v).get m = h.get m := by
  unfold NodeHeaders.get NodeHeaders.set
  rw [List.filter_append, filter_ne_then_eq h.entries (lowerName m) (lowerName n) hnm,
    List.filter_cons_of_neg (by simp; intro hc; exact hnm hc.symm), List.filter_nil,
    List.append_nil]

theorem filter_ne_then_eq_self (l : List HeaderEntry) (t : String) :
    (l.filter (fun e => lowerName e.1 ≠ t)).filter (fun e => lowerName e.1 = t) = [] := by
  rw [List.filter_eq_nil_iff]
  intro a ha
  have hm := List.of_mem_filter ha
  simp only [decide_not, Bool.not_eq_eq_eq_not, Bool.not_true, decide_eq_false_iff_not] at hm
  simp [hm]

theorem entriesIter_filter_of_nil (h : NodeHeaders) (s : String)
    (hf : h.entries.filter (fun e => lowerName e.1 = s) = []) :
    h.entriesIter.filter (fun p => lowerName p.1 = s) = [] := by
  unfold NodeHeaders.entriesIter
  rw [List.filter_map]
  have hco :
      (h.raw.filter
          ((fun p => decide (lowerName p.1 = s)) ∘
            fun kv => (lowerName kv.1, String.intercalate ", " kv.2)))
        = h.raw.filter (fun g => lowerName g.1 = s) := by
    apply List.filter_congr
    intro x _
    show decide (lowerName (lowerName x.1) = s) = decide (lowerName x.1 = s)
    rw [lowerName_idem]
  rw [hco, raw_filter, hf]
  rfl

/-- Claim C1: for every generic response, every header entry whose name matches
set-cookie case-insensitively has each of its values appended unmodified to the
cookie list of the outbound reply in encounter order, and after extraction no
set-cookie entry remains in the header mapping of the outbound reply. -/
theorem sendRemixResponse_cookie_extraction (bt : List String) (r : NodeResponse)
    (ab : Bool) :
    (sendRemixResponse bt r ab).cookies
        = (r.headers.entries.filter (fun e => lowerName e.1 = "set-cookie")).map Prod.snd
      ∧ (sendRemixResponse bt r ab).headers.filter
          (fun p => lowerName p.1 = "set-cookie") = [] := by
  have hsc : lowerName "set-cookie" = "set-cookie" := by decide
  constructor
  · show cookiesOf r.headers = _
    exact cookiesOf_eq r.headers
  · show ((if ab then
            (if (cookiesOf r.headers).length ≠ 0 then r.headers.delete "set-cookie"
              else r.headers).set "Connection" "close"
          else
            (if (cookiesOf r.headers).length ≠ 0 then r.headers.delete "set-cookie"
              else r.headers)).entriesIter).filter
        (fun p => lowerName p.1 = "set-cookie") = []
    apply entriesIter_filter_of_nil
    have hH1 :
        (if (cookiesOf r.headers).length ≠ 0 then r.headers.delete "set-cookie"
          else r.headers).entries.filter (fun e => lowerName e.1 = "set-cookie") = [] := by
      by_cases hcl : (cookiesOf r.headers).length ≠ 0
      · rw [if_pos hcl]
        show ((r.headers.entries.filter
            (fun e => lowerName e.1 ≠ lowerName "set-cookie")).filter
            (fun e => lowerName e.1 = "set-cookie")) = []
        rw [hsc]
        exact filter_ne_then_eq_self r.headers.entries "set-cookie"
      · rw [if_neg hcl]
        have hlen : (cookiesOf r.headers).length = 0 := by omega
        have hnil : cookiesOf r.headers = [] := List.length_eq_zero.mp hlen
        rw [cookiesOf_eq] at hnil
        exact List.map_eq_nil_iff.mp hnil
    cases ab
    · simpa using hH1
    · rw [if_pos rfl]
      show ((if (cookiesOf r.headers).length ≠ 0 then r.headers.delete "set-cookie"
            else r.headers).entries.filter
              (fun e => lowerName e.1 ≠ lowerName "Connection")
          ++ [("Connection", "close")]).filter
            (fun e => lowerName e.1 = "set-cookie") = []
      rw [List.filter_append, filter_ne_then_eq _ _ _ (by decide), hH1]
      decide

/-- Claim C8: for every generic response and cancellation token, if the signal
of the token is aborted before response serialization, the header mapping of
the outbound reply contains Connection set to close; this mutation occurs after cookie
extraction and leaves the extracted cookie list unchanged. -/
theorem sendRemixResponse_abort_connection_close (bt : List String) (r : NodeResponse) :
    mappingGet (sendRemixResponse bt r true).headers "connection" = some "close"
      ∧ (sendRemixResponse bt r true).cookies = (sendRemixResponse bt r false).cookies := by
  have hconn : lowerName "Connection" = "connection" := by decide
  constructor
  · show mappingGet
        ((if (cookiesOf r.headers).length ≠ 0 then r.headers.delete "set-cookie"
            else r.headers).set "Connection" "close").entriesIter "connection" = some "close"
    rw [mappingGet_entriesIter]
    have hfil :
        ((if (cookiesOf r.headers).length ≠ 0 then r.headers.delete "set-cookie"
            else r.headers).set "Connection" "close").entries.filter
          (fun e => lowerName e.1 = "connection") = [("Connection", "close")] := by
      show (((if (cookiesOf r.headers).length ≠ 0 then r.headers.delete "set-cookie"
            else r.headers).entries.filter
              (fun e => lowerName e.1 ≠ lowerName "Connection"))
          ++ [("Connection", "close")]).filter
            (fun e => lowerName e.1 = "connection") = [("Connection", "close")]
      rw [List.filter_append, hconn, filter_ne_then_eq_self]
      decide
    rw [hfil]
    rfl
  · rfl

theorem headers2_get_content_type (r : NodeResponse) (ab : Bool) :
    (if ab then
        (if (cookiesOf r.headers).length ≠ 0 then r.headers.delete "set-cookie"
          else r.headers).set "Connection" "close"
      else
        (if (cookiesOf r.headers).length ≠ 0 then r.headers.delete "set-cookie"
          else r.headers)).get "content-type"
      = r.headers.get "content-type" := by
  have hH1 :
      (if (cookiesOf r.headers).length ≠ 0 then r.headers.delete "set-cookie"
        else r.headers).get "content-type" = r.headers.get "content-type" := by
    by_cases hcl : (cookiesOf r.headers).length ≠ 0
    · rw [if_pos hcl]
      exact get_delete_of_ne r.headers "set-cookie" "content-type" (by decide)
    · rw [if_neg hcl]
  cases ab
  · simpa using hH1
  · rw [if_pos rfl, get_set_of_ne _ "Connection" "close" "content-type" (by decide), hH1]

/-- Claim C2: for every generic response, the isBase64Encoded flag of the
outbound reply is true if and only if the content-type header of the response is present and
is a member of the configured binary-type allow-list; when no content-type
header is present the reply is treated as non-binary.  (The allow-list is a
list of MIME type names, so the empty string is not among its members.) -/
theorem sendRemixResponse_isBase64_iff (bt : List String) (r : NodeResponse)
    (ab : Bool) (hbt : "" ∉ bt) :
    (sendRemixResponse bt r ab).isBase64Encoded = true
      ↔ ∃ ct, r.headers.get "content-type" = some ct ∧ ct ∈ bt := by
  show (match (if ab then
          (if (cookiesOf r.headers).length ≠ 0 then r.headers.delete "set-cookie"
            else r.headers).set "Connection" "close"
        else
          (if (cookiesOf r.headers).length ≠ 0 then r.headers.delete "set-cookie"
            else r.headers)).get "content-type" with
      | some ct => if ct ≠ "" then bt.contains ct else false
      | none => false) = true
      ↔ ∃ ct, r.headers.get "content-type" = some ct ∧ ct ∈ bt
  rw [headers2_get_content_type]
  cases hg : r.headers.get "content-type" with
  | none => simp
  | some ct =>
      show (if ct ≠ "" then bt.contains ct else false) = true
        ↔ ∃ ct2, some ct = some ct2 ∧ ct2 ∈ bt
      constructor
      · intro hflag
        by_cases hct : ct ≠ ""
        · rw [if_pos hct] at hflag
          exact ⟨ct, rfl, by simpa using hflag⟩
        · rw [if_neg hct] at hflag
          exact absurd hflag (by simp)
      · rintro ⟨ct2, hct2, hmem⟩
        have heq : ct = ct2 := by injection hct2
        subst heq
        have hne : ct ≠ "" := fun he => hbt (he ▸ hmem)
        rw [if_pos hne]
        simpa using hmem

theorem string_length_eq_zero_iff (s : String) : s.length = 0 ↔ s = "" := by
  constructor
  · intro h
    cases s with
    | mk l =>
        have hl : l = [] := List.length_eq_zero.mp h
        rw [hl]
  · rintro rfl
    rfl

/-- Claim C3: for every inbound event that carries both an x-forwarded-host
header and a host header, the host of the URL of the generic request built
from the event equals the x-forwarded-host value; when x-forwarded-host is
absent or empty, the host header of the event is used instead. -/
theorem createRemixRequest_host_resolution (e : APIGatewayProxyEventV2) :
    (∀ h1, lookupHeader e.headers "x-forwarded-host" = some h1 → h1 ≠ "" →
        (createRemixRequest e).url.host = h1)
      ∧ ((lookupHeader e.headers "x-forwarded-host" = none
            ∨ lookupHeader e.headers "x-forwarded-host" = some "") →
          ∀ h2, lookupHeader e.headers "host" = some h2 →
            (createRemixRequest e).url.host = h2) := by
  constructor
  · intro h1 hfwd hne
    show jsStringOfOption (eventHost e) = h1
    unfold eventHost
    rw [hfwd]
    show jsStringOfOption (if h1 ≠ "" then some h1 else lookupHeader e.headers "host") = h1
    rw [if_pos hne]
    rfl
  · intro hcase h2 hhost
    show jsStringOfOption (eventHost e) = h2
    unfold eventHost
    cases hcase with
    | inl habs => rw [habs, hhost]; rfl
    | inr hemp =>
        rw [hemp]
        show jsStringOfOption
            (if "" ≠ "" then some "" else lookupHeader e.headers "host") = h2
        rw [if_neg (by simp), hhost]
        rfl

/-- Claim C4: for every inbound event, if rawQueryString is empty the URL of the
generic request has no question-mark suffix, and if rawQueryString is non-empty
the URL is the host plus rawPath with exactly a question mark followed by
rawQueryString appended. -/
theorem createRemixRequest_url_query (e : APIGatewayProxyEventV2) :
    (e.rawQueryString = "" →
        (createRemixRequest e).url.search = ""
          ∧ (createRemixRequest e).url.href
              = "https://" ++ jsStringOfOption (eventHost e) ++ e.rawPath)
      ∧ (e.rawQueryString ≠ "" →
          (createRemixRequest e).url.href
            = "https://" ++ jsStringOfOption (eventHost e) ++ e.rawPath
                ++ "?" ++ e.rawQueryString) := by
  constructor
  · intro hq
    have hlen : ¬ e.rawQueryString.length ≠ 0 := by
      simp [string_length_eq_zero_iff, hq]
    constructor
    · show (if e.rawQueryString.length ≠ 0 then "?" ++ e.rawQueryString else "") = ""
      rw [if_neg hlen]
    · show "https://" ++ jsStringOfOption (eventHost e) ++ e.rawPath
          ++ (if e.rawQueryString.length ≠ 0 then "?" ++ e.rawQueryString else "")
        = "https://" ++ jsStringOfOption (eventHost e) ++ e.rawPath
      rw [if_neg hlen, String.append_empty]
  · intro hq
    have hlen : e.rawQueryString.length ≠ 0 := by
      simp [string_length_eq_zero_iff, hq]
    show "https://" ++ jsStringOfOption (eventHost e) ++ e.rawPath
        ++ (if e.rawQueryString.length ≠ 0 then "?" ++ e.rawQueryString else "")
      = "https://" ++ jsStringOfOption (eventHost e) ++ e.rawPath ++ "?" ++ e.rawQueryString
    rw [if_pos hlen, ← String.append_assoc]

/-- Claim C9: for every inbound event, building the generic request preserves
the method, rawPath and rawQueryString of the event: the method of the request
equals the HTTP method of the event, and the path and query substrings of the
URL of the request equal the original rawPath and rawQueryString unchanged. -/
theorem createRemixRequest_preserves_method_path_query (e : APIGatewayProxyEventV2) :
    (createRemixRequest e).method = e.requestContext.http.method
      ∧ (createRemixRequest e).url.pathname = e.rawPath
      ∧ (createRemixRequest e).url.search
          = (if e.rawQueryString = "" then "" else "?" ++ e.rawQueryString) := by
  refine ⟨rfl, rfl, ?_⟩
  show (if e.rawQueryString.length ≠ 0 then "?" ++ e.rawQueryString else "")
      = (if e.rawQueryString = "" then "" else "?" ++ e.rawQueryString)
  by_cases hq : e.rawQueryString = ""
  · rw [if_pos hq, if_neg (by simp [string_length_eq_zero_iff, hq])]
  · rw [if_neg hq, if_pos (by simp [string_length_eq_zero_iff, hq])]

theorem createRemixHeaders_none_entries (hs : EventHeaders) :
    (createRemixHeaders hs none).entries
      = hs.filterMap (fun kv =>
          match kv.2 with
          | some v => if v ≠ "" then some (kv.1, v) else none
          | none => none) := by
  have hgen :
      ∀ (l : EventHeaders) (h0 : NodeHeaders),
        (l.foldl (fun (hs : NodeHeaders) kv =>
            match kv.2 with
            | some v => if v ≠ "" then hs.append kv.1 v else hs
            | none => hs) h0).entries
          = h0.entries ++ l.filterMap (fun kv =>
              match kv.2 with
              | some v => if v ≠ "" then some (kv.1, v) else none
              | none => none) := by
    intro l
    induction l with
    | nil => intro h0; simp
    | cons kv rest ih =>
        intro h0
        rw [List.foldl_cons, List.filterMap_cons]
        rcases kv with ⟨k, _ | v⟩
        · dsimp only
          rw [ih]
        · dsimp only
          by_cases hne : v ≠ ""
          · rw [if_pos hne, if_pos hne, ih]
            dsimp only
            show (h0.entries ++ [(k, v)]) ++ _ = _
            rw [List.append_assoc]
            rfl
          · rw [if_neg hne, if_neg hne, ih]
  exact hgen hs NodeHeaders.empty

/-- Claim C5: for every inbound event that carries a cookie list, the headers
of the generic request contain exactly one synthesized Cookie header whose
value is the cookie strings of the event joined with a semicolon and a space; in particular
for cookies a=1 and b=2 the Cookie header equals the string a=1; b=2. -/
theorem createRemixHeaders_cookie_header (hs : EventHeaders) (cs : List String) :
    (createRemixHeaders hs (some cs)).entries
        = (createRemixHeaders hs none).entries
            ++ [("Cookie", String.intercalate "; " cs)]
      ∧ ("Cookie", "a=1; b=2") ∈ (createRemixHeaders hs (some ["a=1", "b=2"])).entries := by
  constructor
  · rfl
  · show ("Cookie", "a=1; b=2")
        ∈ (createRemixHeaders hs none).entries
            ++ [("Cookie", String.intercalate "; " ["a=1", "b=2"])]
    refine List.mem_append_right _ ?_
    rw [show String.intercalate "; " ["a=1", "b=2"] = "a=1; b=2" by rfl]
    exact List.mem_singleton.mpr rfl

/-- Claim C10: for an inbound event whose cookies field is present but an
empty list, the generic request still receives a synthesized Cookie header
whose value is the empty string; only an entirely absent cookies field causes
no Cookie header to be appended (with an absent cookies field every request
header entry comes from the own header mapping of the event). -/
theorem createRemixHeaders_empty_cookie_list (hs : EventHeaders) :
    (createRemixHeaders hs (some [])).entries
        = (createRemixHeaders hs none).entries ++ [("Cookie", "")]
      ∧ ∀ p ∈ (createRemixHeaders hs none).entries, (p.1, some p.2) ∈ hs := by
  constructor
  · rfl
  · intro p hp
    rw [createRemixHeaders_none_entries] at hp
    obtain ⟨kv, hkv, hf⟩ := List.mem_filterMap.mp hp
    rcases kv with ⟨k, _ | v⟩
    · dsimp only at hf
      exact absurd hf (by simp)
    · dsimp only at hf
      by_cases hne : v ≠ ""
      · rw [if_pos hne] at hf
        have hp1 : p = (k, v) := (Option.some_injective _ hf).symm
        rw [hp1]
        exact hkv
      · rw [if_neg hne] at hf
        exact absurd hf (by simp)

/-- Claim C6: for every inbound event, if the event declares isBase64Encoded
true and has a non-empty body, the body of the generic request is the base64
decoding of the event body; otherwise the event body is passed through
unchanged, and an absent body yields a request with no body. -/
theorem createRemixRequest_body_decoding (e : APIGatewayProxyEventV2) :
    (∀ b, e.body = some b → b ≠ "" → e.isBase64Encoded = true →
        (createRemixRequest e).body = some (decodeBase64 b))
      ∧ (e.isBase64Encoded = false → (createRemixRequest e).body = e.body)
      ∧ (e.body = some "" → (createRemixRequest e).body = some "")
      ∧ (e.body = none → (createRemixRequest e).body = none) := by
  refine ⟨?_, ?_, ?_, ?_⟩
  · intro b hb hne h64
    show (match e.body with
        | some b => if b ≠ "" ∧ e.isBase64Encoded then some (decodeBase64 b) else some b
        | none => none) = some (decodeBase64 b)
    rw [hb]
    show (if b ≠ "" ∧ e.isBase64Encoded = true then some (decodeBase64 b) else some b)
        = some (decodeBase64 b)
    rw [if_pos ⟨hne, h64⟩]
  · intro h64
    show (match e.body with
        | some b => if b ≠ "" ∧ e.isBase64Encoded then some (decodeBase64 b) else some b
        | none => none) = e.body
    cases hb : e.body with
    | none => rfl
    | some b =>
        show (if b ≠ "" ∧ e.isBase64Encoded = true then some (decodeBase64 b) else some b)
            = some b
        rw [if_neg (fun hc => by rw [h64] at hc; exact Bool.false_ne_true hc.2)]
  · intro hb
    show (match e.body with
        | some b => if b ≠ "" ∧ e.isBase64Encoded then some (decodeBase64 b) else some b
        | none => none) = some ""
    rw [hb]
    show (if "" ≠ "" ∧ e.isBase64Encoded = true then some (decodeBase64 "") else some "")
        = some ""
    rw [if_neg (fun hc => hc.1 rfl)]
  · intro hb
    show (match e.body with
        | some b => if b ≠ "" ∧ e.isBase64Encoded then some (decodeBase64 b) else some b
        | none => none) = none
    rw [hb]

/-- Claim C7: for every generic response classified as binary, the body of the
outbound reply is obtained by draining the response body stream, concatenating
all chunks, and converting the concatenated buffer to a string, with the
isBase64Encoded flag of the reply set true; for every response not classified
binary, the body is materialized as decoded text. -/
theorem sendRemixResponse_body_materialization (bt : List String) (r : NodeResponse)
    (ab : Bool) :
    ((sendRemixResponse bt r ab).isBase64Encoded = true →
        (sendRemixResponse bt r ab).body = bytesToString (bufferStream r.bodyChunks))
      ∧ ((sendRemixResponse bt r ab).isBase64Encoded = false →
          (sendRemixResponse bt r ab).body = r.text) := by
  constructor
  · intro hflag
    show (if (sendRemixResponse bt r ab).isBase64Encoded = true
        then bytesToString (bufferStream r.bodyChunks) else r.text)
        = bytesToString (bufferStream r.bodyChunks)
    rw [if_pos hflag]
  · intro hflag
    show (if (sendRemixResponse bt r ab).isBase64Encoded = true
        then bytesToString (bufferStream r.bodyChunks) else r.text)
        = r.text
    rw [if_neg (by rw [hflag]; exact Bool.false_ne_true)]

/-- Witness for the C2 theorem at a concrete response and configuration. -/
theorem sendRemixResponse_isBase64_iff_witness :
    ("" : String) ∉ ["application/pdf"]
      ∧ ((sendRemixResponse ["application/pdf"]
            ⟨200, ⟨[("content-type", "application/pdf")]⟩, []⟩ false).isBase64Encoded = true
          ↔ ∃ ct, (NodeHeaders.mk [("content-type", "application/pdf")]).get "content-type"
                = some ct
              ∧ ct ∈ ["application/pdf"]) :=
  ⟨by decide, sendRemixResponse_isBase64_iff ["application/pdf"]
      ⟨200, ⟨[("content-type", "application/pdf")]⟩, []⟩ false (by decide)⟩

/-- Witness for the C3 theorem at a concrete event carrying both headers. -/
theorem createRemixRequest_host_resolution_witness :
    lookupHeader [("x-forwarded-host", some "fwd.example"), ("host", some "orig.example")]
        "x-forwarded-host" = some "fwd.example"
      ∧ ("fwd.example" : String) ≠ ""
      ∧ (createRemixRequest
            ⟨"/", "", [("x-forwarded-host", some "fwd.example"), ("host", some "orig.example")],
              none, ⟨⟨"GET"⟩⟩, none, false⟩).url.host = "fwd.example" :=
  ⟨rfl, by decide,
    (createRemixRequest_host_resolution
      ⟨"/", "", [("x-forwarded-host", some "fwd.example"), ("host", some "orig.example")],
        none, ⟨⟨"GET"⟩⟩, none, false⟩).1 "fwd.example" rfl (by decide)⟩

/-- Witness for the C4 theorem at concrete events with and without a query. -/
theorem createRemixRequest_url_query_witness :
    ("a=b" : String) ≠ ""
      ∧ (createRemixRequest
            ⟨"/p", "a=b", [("host", some "h.example")], none, ⟨⟨"GET"⟩⟩, none,
              false⟩).url.href = "https://h.example/p?a=b"
      ∧ (createRemixRequest
            ⟨"/p", "", [("host", some "h.example")], none, ⟨⟨"GET"⟩⟩, none,
              false⟩).url.search = "" :=
  ⟨by decide,
    ((createRemixRequest_url_query
        ⟨"/p", "a=b", [("host", some "h.example")], none, ⟨⟨"GET"⟩⟩, none, false⟩).2
      (by decide)).trans (by decide),
    ((createRemixRequest_url_query
        ⟨"/p", "", [("host", some "h.example")], none, ⟨⟨"GET"⟩⟩, none, false⟩).1 rfl).1⟩

/-- Witness for the C6 theorem: a base64 body decodes. -/
theorem createRemixRequest_body_decoding_witness :
    ("aGVsbG8=" : String) ≠ ""
      ∧ (createRemixRequest
            ⟨"/p", "", [], none, ⟨⟨"POST"⟩⟩, some "aGVsbG8=", true⟩).body = some "hello" :=
  ⟨by decide,
    ((createRemixRequest_body_decoding
        ⟨"/p", "", [], none, ⟨⟨"POST"⟩⟩, some "aGVsbG8=", true⟩).1 "aGVsbG8=" rfl
      (by decide) rfl).trans (by decide)⟩

/-- Witness for the C7 theorem at a binary and a text response. -/
theorem sendRemixResponse_body_materialization_witness :
    (sendRemixResponse ["application/octet-stream"]
        ⟨200, ⟨[("content-type", "application/octet-stream")]⟩, [[104], [105]]⟩
        false).isBase64Encoded = true
      ∧ (sendRemixResponse ["application/octet-stream"]
          ⟨200, ⟨[("content-type", "application/octet-stream")]⟩, [[104], [105]]⟩
          false).body = bytesToString (bufferStream [[104], [105]])
      ∧ (sendRemixResponse ["application/octet-stream"]
          ⟨200, ⟨[("content-type", "text/plain")]⟩, [[104], [105]]⟩ false).body
        = NodeResponse.text ⟨200, ⟨[("content-type", "text/plain")]⟩, [[104], [105]]⟩ :=
  ⟨by decide,
    (sendRemixResponse_body_materialization ["application/octet-stream"]
      ⟨200, ⟨[("content-type", "application/octet-stream")]⟩, [[104], [105]]⟩ false).1
      (by decide),
    (sendRemixResponse_body_materialization ["application/octet-stream"]
      ⟨200, ⟨[("content-type", "text/plain")]⟩, [[104], [105]]⟩ false).2 (by decide)⟩

/-- Witness for the C10 theorem at a concrete header mapping. -/
theorem createRemixHeaders_empty_cookie_list_witness :
    (("x-req", "1") : HeaderEntry) ∈ (createRemixHeaders [("x-req", some "1")] none).entries
      ∧ (("x-req", some "1") : String × Option String)
          ∈ ([("x-req", some "1")] : EventHeaders) :=
  ⟨by decide,
    (createRemixHeaders_empty_cookie_list [("x-req", some "1")]).2 ("x-req", "1") (by decide)⟩

end RemixArchitect
